import Mathlib

/-!
Verification of the conversational state machine of `src/app.py`.

The embedding models the mutable Streamlit session state
(`st.session_state.messages`, `st.session_state.history_log`,
`st.session_state.model_name`, `st.session_state.auto_log`, and the
provider-side chat history) as an explicit record `AppState`, and each
state-changing code path of the script as a pure state-transition
function:

* `initialize_client_and_chat` — lines 50-94 of `app.py`;
* `processInput` — the chat-input handler, lines 162-220;
* `checkModelChange` — the model-change re-initialization, lines 145-148;
* `step` / `runEvents` — one Streamlit rerun cycle per `Event`.

Python list slicing `xs[-(k):]` is modelled by `lastN`, and Python
truthiness of the `history_to_restore` argument (None or empty list is
falsy) is modelled by matching on `Option` and testing `isEmpty`.
-/

/-- A role in the visible conversation (`message["role"]` in `app.py`). -/
inductive Role where
  | user
  | assistant
deriving DecidableEq, Repr

/-- One entry of `st.session_state.messages`: `{"role": ..., "content": ...}`. -/
structure Turn where
  role : Role
  content : String
deriving DecidableEq, Repr

/-- One entry of `st.session_state.history_log`:
`{"Timestamp": ..., "Role": ..., "Content": ..., "Model": ...}`. -/
structure LogEntry where
  timestamp : String
  role : Role
  content : String
  model : String
deriving DecidableEq, Repr

/-- One `types.Content` appended to the provider chat's history during
restoration (`chat.history.append(...)`, lines 71-76): a role string in the
provider's vocabulary plus the single text part. -/
structure GContent where
  role : String
  text : String
deriving DecidableEq, Repr

/-- The session state of the app. -/
structure AppState where
  messages : List Turn
  history_log : List LogEntry
  model_name : String
  auto_log : Bool
  chat_history : List GContent
deriving DecidableEq, Repr

/-- `DEFAULT_MODEL` (line 11). -/
def DEFAULT_MODEL : String := "gemini-2.0-flash"

/-- `RESTART_MESSAGE` (line 22). -/
def RESTART_MESSAGE : String :=
  "❗️ API 요청 오류(429 등)가 발생하여 이전 6턴의 대화만 유지하고 채팅 세션을 재시작합니다."

/-- `MAX_HISTORY_TURN` (line 23). -/
def MAX_HISTORY_TURN : Nat := 6

/-- The f-string `f"죄송합니다. 오류가 발생했습니다: {e}"` of line 204. -/
def apologyMessage (e : String) : String :=
  "죄송합니다. 오류가 발생했습니다: " ++ e

/-- `role_map = {"user": "user", "assistant": "model"}` (line 70). -/
def role_map : Role → String
  | .user => "user"
  | .assistant => "model"

/-- Python slice `xs[-(k):]`: the last `k` elements (all of `xs` when
`xs.length ≤ k`). -/
def lastN (k : Nat) {α : Type} (xs : List α) : List α :=
  xs.drop (xs.length - k)

/-- The log record appended for the restart notice (lines 79-84). -/
def restartLogEntry (now model : String) : LogEntry :=
  ⟨now, .assistant, RESTART_MESSAGE, model⟩

/-- `initialize_client_and_chat` (lines 50-94).  A fresh provider chat is
created (its history is empty, then seeded by the replay loop).  When
`history_to_restore` is truthy (present and non-empty): each prior message is
replayed into the chat history through `role_map`; `messages` is set to the
restored list with the restart notice appended; the restart notice's log
record is appended to `history_log` (which is otherwise left as it was).
When falsy: `messages` and `history_log` are reset to empty.  The final
`st.rerun()` just redraws, so the function returns the resulting state. -/
def initialize_client_and_chat (s : AppState) (now model_name : String)
    (history_to_restore : Option (List Turn)) : AppState :=
  match history_to_restore with
  | some h =>
    if h.isEmpty then
      { s with chat_history := [], model_name := model_name,
               messages := [], history_log := [] }
    else
      { s with
        chat_history := h.map (fun m => ⟨role_map m.role, m.content⟩),
        model_name := model_name,
        messages := h ++ [⟨.assistant, RESTART_MESSAGE⟩],
        history_log := s.history_log ++ [restartLogEntry now model_name] }
  | none =>
      { s with chat_history := [], model_name := model_name,
               messages := [], history_log := [] }

/-- The outcome of `gemini_chat.send_message(prompt, stream=True)` plus the
iteration over the stream: either the finite list of fragment texts (an
empty string standing for a chunk whose `.text` is falsy), a
`ResourceExhaustedError` (429), or any other exception with its message. -/
inductive SendOutcome where
  | success (chunks : List String)
  | resourceExhausted
  | genericError (err : String)
deriving DecidableEq, Repr

/-- The streaming loop of lines 187-190: concatenate every truthy
`chunk.text` in arrival order. -/
def accumulate (chunks : List String) : String :=
  chunks.foldl (fun acc c => if c.isEmpty then acc else acc ++ c) ""

/-- Step "3. Record Model Response" (lines 207-218): append the accumulated
text as an assistant turn unless it is empty or equals `RESTART_MESSAGE`;
additionally log it when `auto_log` is set. -/
def recordModelResponse (s : AppState) (now full_response : String) : AppState :=
  if full_response ≠ "" ∧ full_response ≠ RESTART_MESSAGE then
    let s1 := { s with messages := s.messages ++ [⟨.assistant, full_response⟩] }
    if s.auto_log then
      { s1 with history_log :=
          s1.history_log ++ [⟨now, .assistant, full_response, s.model_name⟩] }
    else s1
  else s

/-- Step "1. Record and Display User Message" (lines 164-172): the user turn
and its log record are appended unconditionally. -/
def appendUserTurn (s : AppState) (now prompt : String) : AppState :=
  { s with messages := s.messages ++ [⟨.user, prompt⟩],
           history_log := s.history_log ++ [⟨now, .user, prompt, s.model_name⟩] }

/-- The whole chat-input handler (lines 162-220) for one submitted prompt.
On 429 the handler slices the last `MAX_HISTORY_TURN * 2` messages
(`history_to_keep`, line 196; the slice of the log computed on line 197 is
never used) and re-initializes; `st.rerun()` inside the helper aborts the
script, so step 3 is skipped on that path.  On any other exception the
apology string becomes the reply and step 3 runs normally. -/
def processInput (s : AppState) (now prompt : String) (outcome : SendOutcome) :
    AppState :=
  let s1 := appendUserTurn s now prompt
  match outcome with
  | .success chunks => recordModelResponse s1 now (accumulate chunks)
  | .resourceExhausted =>
      let history_to_keep := lastN (MAX_HISTORY_TURN * 2) s1.messages
      initialize_client_and_chat s1 now s1.model_name (some history_to_keep)
  | .genericError e => recordModelResponse s1 now (apologyMessage e)

/-- Lines 145-148: when the selected model differs from the active session's
model, re-initialize with no history (full reset). -/
def checkModelChange (s : AppState) (now selected_model : String) : AppState :=
  if s.model_name ≠ selected_model then
    initialize_client_and_chat s now selected_model none
  else s

/-- One operator action processed in one rerun cycle. -/
inductive Event where
  | chatInput (now prompt : String) (outcome : SendOutcome)
  | selectModel (now selected : String)
  | resetButton (now selected : String)
  | setAutoLog (b : Bool)
deriving DecidableEq, Repr

/-- The state transition of one rerun cycle. -/
def step (s : AppState) : Event → AppState
  | .chatInput now prompt outcome => processInput s now prompt outcome
  | .selectModel now selected => checkModelChange s now selected
  | .resetButton now selected => initialize_client_and_chat s now selected none
  | .setAutoLog b => { s with auto_log := b }

/-- The state right after the first run's session setup (lines 98-101). -/
def initState : AppState := ⟨[], [], DEFAULT_MODEL, false, []⟩

/-- Run a sequence of operator actions from the initial state. -/
def runEvents (evs : List Event) : AppState := evs.foldl step initState

/-- Build a transcript of completed user/assistant pairs. -/
def mkPairs : List (String × String) → List Turn
  | [] => []
  | (u, a) :: ps => ⟨.user, u⟩ :: ⟨.assistant, a⟩ :: mkPairs ps

/-- Number of restart-notice records in a log. -/
def countNotice (l : List LogEntry) : Nat :=
  (l.filter (fun e => e.role == Role.assistant && e.content == RESTART_MESSAGE)).length

/-! ### Helper lemmas -/

lemma apologyMessage_ne_empty (e : String) : apologyMessage e ≠ "" := by
  intro h
  have hd := congrArg String.data h
  rw [apologyMessage, String.data_append] at hd
  have h2 := congrArg List.head? hd
  have h3 : (some '죄' : Option Char) = none := by
    calc (some '죄' : Option Char)
        = (("죄송합니다. 오류가 발생했습니다: ").data ++ e.data).head? := rfl
      _ = ("" : String).data.head? := h2
      _ = none := rfl
  exact absurd h3 (by decide)

lemma apologyMessage_ne_restart (e : String) : apologyMessage e ≠ RESTART_MESSAGE := by
  intro h
  have hd := congrArg String.data h
  rw [apologyMessage, String.data_append] at hd
  have h2 := congrArg List.head? hd
  have h3 : (some '죄' : Option Char) = some '❗' := by
    calc (some '죄' : Option Char)
        = (("죄송합니다. 오류가 발생했습니다: ").data ++ e.data).head? := rfl
      _ = RESTART_MESSAGE.data.head? := h2
      _ = some '❗' := rfl
  exact absurd h3 (by decide)

lemma mem_lastN_append_last {α : Type} (k : Nat) (xs : List α) (x : α) :
    x ∈ lastN (k + 1) (xs ++ [x]) := by
  unfold lastN
  rw [List.drop_append_of_le_length
        (by simp only [List.length_append, List.length_singleton]; omega)]
  simp

lemma mem_lastN_append_last' {α : Type} (k : Nat) (hk : 1 ≤ k) (xs : List α) (x : α) :
    x ∈ lastN k (xs ++ [x]) := by
  obtain ⟨k', rfl⟩ : ∃ k', k = k' + 1 := ⟨k - 1, by omega⟩
  exact mem_lastN_append_last k' xs x

lemma length_lastN {α : Type} (k : Nat) (xs : List α) :
    (lastN k xs).length = min xs.length k := by
  simp [lastN]
  omega

lemma lastN_of_le {α : Type} (k : Nat) (xs : List α) (h : xs.length ≤ k) :
    lastN k xs = xs := by
  simp [lastN, Nat.sub_eq_zero_of_le h]

lemma length_mkPairs (ps : List (String × String)) :
    (mkPairs ps).length = 2 * ps.length := by
  induction ps with
  | nil => rfl
  | cons p ps ih => simp [mkPairs, ih]; omega

/-- The net effect of the `ResourceExhaustedError` handler (lines 194-201)
together with the restore branch of `initialize_client_and_chat`. -/
lemma processInput_resourceExhausted (s : AppState) (now prompt : String) :
    processInput s now prompt .resourceExhausted =
      { s with
        chat_history := (lastN (MAX_HISTORY_TURN * 2) (s.messages ++ [⟨.user, prompt⟩])).map
            (fun m => ⟨role_map m.role, m.content⟩),
        messages := lastN (MAX_HISTORY_TURN * 2) (s.messages ++ [⟨.user, prompt⟩])
            ++ [⟨.assistant, RESTART_MESSAGE⟩],
        history_log := (s.history_log ++ [⟨now, .user, prompt, s.model_name⟩])
            ++ [restartLogEntry now s.model_name] } := by
  have hne : lastN (MAX_HISTORY_TURN * 2) (s.messages ++ [Turn.mk .user prompt]) ≠ [] :=
    List.ne_nil_of_mem
      (mem_lastN_append_last' _ (by norm_num [MAX_HISTORY_TURN]) s.messages _)
  simp [processInput, appendUserTurn, initialize_client_and_chat,
        List.isEmpty_iff, hne]

lemma recordModelResponse_messages_of_valid (s : AppState) (now full : String)
    (h1 : full ≠ "") (h2 : full ≠ RESTART_MESSAGE) :
    (recordModelResponse s now full).messages
      = s.messages ++ [⟨.assistant, full⟩] := by
  simp [recordModelResponse, h1, h2]
  cases s.auto_log <;> simp

lemma recordModelResponse_log_of_valid (s : AppState) (now full : String)
    (h1 : full ≠ "") (h2 : full ≠ RESTART_MESSAGE) :
    (recordModelResponse s now full).history_log
      = s.history_log
          ++ (if s.auto_log then [⟨now, .assistant, full, s.model_name⟩] else []) := by
  simp [recordModelResponse, h1, h2]
  cases s.auto_log <;> simp

lemma recordModelResponse_messages_extends (s : AppState) (now full : String) :
    ∃ rest, (recordModelResponse s now full).messages = s.messages ++ rest := by
  unfold recordModelResponse
  by_cases hc : full ≠ "" ∧ full ≠ RESTART_MESSAGE
  · rw [if_pos hc]
    cases hb : s.auto_log <;> simp
  · rw [if_neg hc]
    exact ⟨[], by simp⟩

lemma recordModelResponse_log_extends (s : AppState) (now full : String) :
    ∃ rest, (recordModelResponse s now full).history_log = s.history_log ++ rest := by
  unfold recordModelResponse
  by_cases hc : full ≠ "" ∧ full ≠ RESTART_MESSAGE
  · rw [if_pos hc]
    cases hb : s.auto_log <;> simp
  · rw [if_neg hc]
    exact ⟨[], by simp⟩

/-! ### Claim theorems -/

/-- C5: whenever the selected model identifier differs from the active
session's model, the re-initialization without a restore history leaves both
the Transcript Store (`messages`) and the Audit Log (`history_log`) empty
after the next render cycle, and the new model is installed. -/
theorem modelChange_clears_transcript_and_log (s : AppState)
    (now selected_model : String) (h : s.model_name ≠ selected_model) :
    (checkModelChange s now selected_model).messages = []
    ∧ (checkModelChange s now selected_model).history_log = []
    ∧ (checkModelChange s now selected_model).model_name = selected_model := by
  simp [checkModelChange, h, initialize_client_and_chat]

/-- Witness for `modelChange_clears_transcript_and_log` at a concrete state. -/
theorem modelChange_clears_transcript_and_log_witness :
    (checkModelChange initState "t" "gemini-2.5-pro").messages = []
    ∧ (checkModelChange initState "t" "gemini-2.5-pro").history_log = []
    ∧ (checkModelChange initState "t" "gemini-2.5-pro").model_name
        = "gemini-2.5-pro" :=
  modelChange_clears_transcript_and_log initState "t" "gemini-2.5-pro" (by decide)

/-- C6: replaying a `history_to_restore` list into the fresh provider chat
preserves each turn's content text exactly and preserves order; the only
transformation is the role-label remapping `user ↦ "user"`,
`assistant ↦ "model"`. -/
theorem replay_preserves_content_and_order (s : AppState)
    (now model_name : String) (h : List Turn) :
    (initialize_client_and_chat s now model_name (some h)).chat_history
        = h.map (fun t => GContent.mk (role_map t.role) t.content)
    ∧ role_map Role.user = "user"
    ∧ role_map Role.assistant = "model" := by
  refine ⟨?_, rfl, rfl⟩
  cases h <;> simp [initialize_client_and_chat]

/-- C7: any non-quota exception during a send is recovered locally — the
visible reply becomes the fixed apology string prefixed to the error text and
is appended as an assistant turn under the normal assistant-turn logic
(logged only when the toggle is on), while the provider chat session and the
model are untouched. -/
theorem genericError_recovers_locally (s : AppState) (now prompt e : String) :
    (processInput s now prompt (.genericError e)).messages
        = s.messages ++ [⟨.user, prompt⟩, ⟨.assistant, apologyMessage e⟩]
    ∧ (processInput s now prompt (.genericError e)).chat_history = s.chat_history
    ∧ (processInput s now prompt (.genericError e)).model_name = s.model_name
    ∧ (processInput s now prompt (.genericError e)).history_log
        = s.history_log ++ [⟨now, .user, prompt, s.model_name⟩]
            ++ (if s.auto_log then [⟨now, .assistant, apologyMessage e, s.model_name⟩]
                else []) := by
  have h1 := apologyMessage_ne_empty e
  have h2 := apologyMessage_ne_restart e
  refine ⟨?_, ?_, ?_, ?_⟩
  · rw [show (processInput s now prompt (.genericError e))
          = recordModelResponse (appendUserTurn s now prompt) now (apologyMessage e)
        from rfl,
      recordModelResponse_messages_of_valid _ _ _ h1 h2]
    simp [appendUserTurn]
  · simp [processInput, recordModelResponse, appendUserTurn, h1, h2]
    cases s.auto_log <;> simp
  · simp [processInput, recordModelResponse, appendUserTurn, h1, h2]
    cases s.auto_log <;> simp
  · rw [show (processInput s now prompt (.genericError e))
          = recordModelResponse (appendUserTurn s now prompt) now (apologyMessage e)
        from rfl,
      recordModelResponse_log_of_valid _ _ _ h1 h2]
    simp [appendUserTurn]

/-- C10: when the streamed reply accumulates to the empty string, no
assistant turn and no assistant log record are appended — the cycle leaves
only the pending user turn and its log record. -/
theorem empty_stream_appends_no_assistant (s : AppState) (now prompt : String)
    (chunks : List String) (h : accumulate chunks = "") :
    (processInput s now prompt (.success chunks)).messages
        = s.messages ++ [⟨.user, prompt⟩]
    ∧ (processInput s now prompt (.success chunks)).history_log
        = s.history_log ++ [⟨now, .user, prompt, s.model_name⟩] := by
  constructor <;> simp [processInput, recordModelResponse, appendUserTurn, h]

/-- Witness for `empty_stream_appends_no_assistant`: two chunks whose text is
falsy accumulate to the empty string. -/
theorem empty_stream_appends_no_assistant_witness :
    (processInput initState "t" "hello" (.success ["", ""])).messages
        = initState.messages ++ [⟨.user, "hello"⟩]
    ∧ (processInput initState "t" "hello" (.success ["", ""])).history_log
        = initState.history_log ++ [⟨"t", .user, "hello", initState.model_name⟩] :=
  empty_stream_appends_no_assistant initState "t" "hello" ["", ""] (by decide)

/-- C4: a restoration event appends the restart notice's log record exactly
once, whatever the value of the logging toggle (the state `s`, including its
`auto_log` field, is arbitrary); and the orchestrator's step 3 suppresses a
second append when the accumulated reply text equals `RESTART_MESSAGE`. -/
theorem restart_notice_logged_exactly_once (s : AppState) (now prompt : String) :
    countNotice (processInput s now prompt .resourceExhausted).history_log
        = countNotice s.history_log + 1
    ∧ ∀ chunks : List String, accumulate chunks = RESTART_MESSAGE →
        (processInput s now prompt (.success chunks)).messages
            = s.messages ++ [⟨.user, prompt⟩]
        ∧ (processInput s now prompt (.success chunks)).history_log
            = s.history_log ++ [⟨now, .user, prompt, s.model_name⟩] := by
  constructor
  · rw [processInput_resourceExhausted]
    simp [countNotice, List.filter_append, restartLogEntry]
  · intro chunks hc
    constructor <;> simp [processInput, recordModelResponse, appendUserTurn, hc]

/-- Witness for `restart_notice_logged_exactly_once` at a concrete state and
a stream that accumulates exactly to the restart notice. -/
theorem restart_notice_logged_exactly_once_witness :
    countNotice (processInput initState "t" "p" .resourceExhausted).history_log
        = countNotice initState.history_log + 1
    ∧ (processInput initState "t" "p" (.success [RESTART_MESSAGE])).messages
        = initState.messages ++ [⟨.user, "p"⟩] :=
  ⟨(restart_notice_logged_exactly_once initState "t" "p").1,
   ((restart_notice_logged_exactly_once initState "t" "p").2
      [RESTART_MESSAGE] (by decide)).1⟩

/-- C8: the user turn and its log record are appended unconditionally — on
every outcome the resulting log extends the old log plus the user record,
and the user turn is in the resulting transcript (even on the 429 path,
where the transcript is truncated); with the logging toggle off, a
successful non-empty, non-notice reply is appended to the transcript only,
leaving the log with just the user record. -/
theorem user_turn_appended_unconditionally (s : AppState) (now prompt : String)
    (outcome : SendOutcome) :
    (∃ rest, (processInput s now prompt outcome).history_log
        = (s.history_log ++ [⟨now, .user, prompt, s.model_name⟩]) ++ rest)
    ∧ Turn.mk .user prompt ∈ (processInput s now prompt outcome).messages
    ∧ (∀ chunks : List String, s.auto_log = false → accumulate chunks ≠ "" →
        accumulate chunks ≠ RESTART_MESSAGE →
        (processInput s now prompt (.success chunks)).messages
            = s.messages ++ [⟨.user, prompt⟩, ⟨.assistant, accumulate chunks⟩]
        ∧ (processInput s now prompt (.success chunks)).history_log
            = s.history_log ++ [⟨now, .user, prompt, s.model_name⟩]) := by
  refine ⟨?_, ?_, ?_⟩
  · cases outcome with
    | success chunks =>
        obtain ⟨rest, hr⟩ := recordModelResponse_log_extends
          (appendUserTurn s now prompt) now (accumulate chunks)
        exact ⟨rest, hr⟩
    | resourceExhausted =>
        refine ⟨[restartLogEntry now s.model_name], ?_⟩
        rw [processInput_resourceExhausted]
    | genericError e =>
        obtain ⟨rest, hr⟩ := recordModelResponse_log_extends
          (appendUserTurn s now prompt) now (apologyMessage e)
        exact ⟨rest, hr⟩
  · cases outcome with
    | success chunks =>
        obtain ⟨rest, hr⟩ := recordModelResponse_messages_extends
          (appendUserTurn s now prompt) now (accumulate chunks)
        rw [show processInput s now prompt (.success chunks)
              = recordModelResponse (appendUserTurn s now prompt) now
                  (accumulate chunks) from rfl, hr]
        simp [appendUserTurn]
    | resourceExhausted =>
        rw [processInput_resourceExhausted]
        refine List.mem_append_left _ ?_
        exact mem_lastN_append_last' _ (by norm_num [MAX_HISTORY_TURN]) s.messages _
    | genericError e =>
        obtain ⟨rest, hr⟩ := recordModelResponse_messages_extends
          (appendUserTurn s now prompt) now (apologyMessage e)
        rw [show processInput s now prompt (.genericError e)
              = recordModelResponse (appendUserTurn s now prompt) now
                  (apologyMessage e) from rfl, hr]
        simp [appendUserTurn]
  · intro chunks h0 h1 h2
    constructor
    · rw [show processInput s now prompt (.success chunks)
            = recordModelResponse (appendUserTurn s now prompt) now
                (accumulate chunks) from rfl,
          recordModelResponse_messages_of_valid _ _ _ h1 h2]
      simp [appendUserTurn]
    · rw [show processInput s now prompt (.success chunks)
            = recordModelResponse (appendUserTurn s now prompt) now
                (accumulate chunks) from rfl,
          recordModelResponse_log_of_valid _ _ _ h1 h2]
      simp [appendUserTurn, h0]

/-- Witness for `user_turn_appended_unconditionally`: the spec's scenario —
toggle off, user sends "hello", assistant replies "hi"; the transcript gains
both turns while the log holds only the user record. -/
theorem user_turn_appended_unconditionally_witness :
    (∃ rest, (processInput initState "t" "hello" (.success ["hi"])).history_log
        = (initState.history_log
            ++ [⟨"t", .user, "hello", initState.model_name⟩]) ++ rest)
    ∧ (processInput initState "t" "hello" (.success ["hi"])).messages
        = initState.messages ++ [⟨.user, "hello"⟩, ⟨.assistant, accumulate ["hi"]⟩]
    ∧ (processInput initState "t" "hello" (.success ["hi"])).history_log
        = initState.history_log ++ [⟨"t", .user, "hello", initState.model_name⟩] :=
  ⟨(user_turn_appended_unconditionally initState "t" "hello" (.success ["hi"])).1,
   ((user_turn_appended_unconditionally initState "t" "hello" (.success ["hi"])).2.2
      ["hi"] (by decide) (by decide) (by decide)).1,
   ((user_turn_appended_unconditionally initState "t" "hello" (.success ["hi"])).2.2
      ["hi"] (by decide) (by decide) (by decide)).2⟩

/-- C1 counterexample: with 7 completed pairs in the Transcript Store, the
8th send's 429 restoration yields 13 entries, but they are NOT "the most
recent `MAX_HISTORY_TURN` pairs": the slice is taken after the pending user
turn "u8" was appended, so pair 2's user turn "u2" is cut off while its
assistant turn "a2" survives as an orphan. -/
theorem quota_restoration_window_counterexample :
    (processInput
        ⟨mkPairs [("u1","a1"),("u2","a2"),("u3","a3"),("u4","a4"),("u5","a5"),
                  ("u6","a6"),("u7","a7")], [], DEFAULT_MODEL, false, []⟩
        "t8" "u8" .resourceExhausted).messages.length = 13
    ∧ Turn.mk .user "u2" ∉ (processInput
        ⟨mkPairs [("u1","a1"),("u2","a2"),("u3","a3"),("u4","a4"),("u5","a5"),
                  ("u6","a6"),("u7","a7")], [], DEFAULT_MODEL, false, []⟩
        "t8" "u8" .resourceExhausted).messages
    ∧ Turn.mk .assistant "a2" ∈ (processInput
        ⟨mkPairs [("u1","a1"),("u2","a2"),("u3","a3"),("u4","a4"),("u5","a5"),
                  ("u6","a6"),("u7","a7")], [], DEFAULT_MODEL, false, []⟩
        "t8" "u8" .resourceExhausted).messages := by
  decide

/-- C1 amended: the restoration window is the last `MAX_HISTORY_TURN * 2`
entries of the Transcript Store after the pending user turn was appended,
followed by the restart notice.  Hence the post-recovery store has
`min (2N+1, 12) + 1` entries, and only for `N ≤ 5` are all `N` pairs kept
(together with the pending user turn); for `N ≥ 6` the 12-entry window
starts mid-pair. -/
theorem quota_restoration_window (log : List LogEntry) (model : String)
    (auto : Bool) (ch : List GContent) (ps : List (String × String))
    (now prompt : String) :
    (processInput ⟨mkPairs ps, log, model, auto, ch⟩ now prompt
        .resourceExhausted).messages
      = lastN (MAX_HISTORY_TURN * 2) (mkPairs ps ++ [⟨.user, prompt⟩])
          ++ [⟨.assistant, RESTART_MESSAGE⟩]
    ∧ (processInput ⟨mkPairs ps, log, model, auto, ch⟩ now prompt
        .resourceExhausted).messages.length
      = min (2 * ps.length + 1) (MAX_HISTORY_TURN * 2) + 1
    ∧ (ps.length ≤ 5 →
        (processInput ⟨mkPairs ps, log, model, auto, ch⟩ now prompt
            .resourceExhausted).messages
          = mkPairs ps ++ [⟨.user, prompt⟩, ⟨.assistant, RESTART_MESSAGE⟩]) := by
  have h1 : (processInput ⟨mkPairs ps, log, model, auto, ch⟩ now prompt
        .resourceExhausted).messages
      = lastN (MAX_HISTORY_TURN * 2) (mkPairs ps ++ [⟨.user, prompt⟩])
          ++ [⟨.assistant, RESTART_MESSAGE⟩] := by
    rw [processInput_resourceExhausted]
  refine ⟨h1, ?_, ?_⟩
  · rw [h1]
    simp only [List.length_append, length_lastN, length_mkPairs,
      List.length_singleton, MAX_HISTORY_TURN]
  · intro hp
    rw [h1, lastN_of_le _ _ (by
      simp only [List.length_append, length_mkPairs, List.length_singleton,
        MAX_HISTORY_TURN]
      omega)]
    simp

/-- Witness for `quota_restoration_window` with one completed pair
(`N = 1 ≤ 5`): everything is kept. -/
theorem quota_restoration_window_witness :
    (processInput ⟨mkPairs [("u1","a1")], [], DEFAULT_MODEL, false, []⟩
        "t" "u2" .resourceExhausted).messages
      = mkPairs [("u1","a1")] ++ [⟨.user, "u2"⟩, ⟨.assistant, RESTART_MESSAGE⟩]
    ∧ (processInput ⟨mkPairs [("u1","a1")], [], DEFAULT_MODEL, false, []⟩
        "t" "u2" .resourceExhausted).messages.length
      = min (2 * 1 + 1) (MAX_HISTORY_TURN * 2) + 1 :=
  ⟨(quota_restoration_window [] DEFAULT_MODEL false [] [("u1","a1")] "t" "u2").2.2
      (by decide),
   (quota_restoration_window [] DEFAULT_MODEL false [] [("u1","a1")] "t" "u2").2.1⟩

/-- C2 (code bug): `log_to_keep` (line 197) is computed but never assigned
back, so restoration does NOT truncate the Audit Log.  With the toggle on
and 7 completed pairs (14 log records, then the pending user record = 15) a
429 leaves all 15 records plus the restart notice = 16 — the first record
("u1") is still there, where the claim requires only the last 12 plus the
notice (13). -/
theorem audit_log_not_truncated_on_restoration :
    (runEvents [.setAutoLog true,
      .chatInput "t1" "u1" (.success ["a1"]),
      .chatInput "t2" "u2" (.success ["a2"]),
      .chatInput "t3" "u3" (.success ["a3"]),
      .chatInput "t4" "u4" (.success ["a4"]),
      .chatInput "t5" "u5" (.success ["a5"]),
      .chatInput "t6" "u6" (.success ["a6"]),
      .chatInput "t7" "u7" (.success ["a7"]),
      .chatInput "t8" "u8" .resourceExhausted]).history_log.length = 16
    ∧ (runEvents [.setAutoLog true,
      .chatInput "t1" "u1" (.success ["a1"]),
      .chatInput "t2" "u2" (.success ["a2"]),
      .chatInput "t3" "u3" (.success ["a3"]),
      .chatInput "t4" "u4" (.success ["a4"]),
      .chatInput "t5" "u5" (.success ["a5"]),
      .chatInput "t6" "u6" (.success ["a6"]),
      .chatInput "t7" "u7" (.success ["a7"]),
      .chatInput "t8" "u8" .resourceExhausted]).history_log.head?
        = some ⟨"t1", .user, "u1", DEFAULT_MODEL⟩ := by
  decide

/-- C3 counterexample: after the spec's own scenario — 7 completed pairs,
then a 429 on the 8th send — the cycle is over (the handler rerendered and
is idle), yet the Transcript Store holds 13 entries, an odd number that is
not transient: the pending user turn "u8" never receives a reply. -/
theorem transcript_even_length_counterexample :
    ¬ Even ((runEvents [
      .chatInput "t1" "u1" (.success ["a1"]),
      .chatInput "t2" "u2" (.success ["a2"]),
      .chatInput "t3" "u3" (.success ["a3"]),
      .chatInput "t4" "u4" (.success ["a4"]),
      .chatInput "t5" "u5" (.success ["a5"]),
      .chatInput "t6" "u6" (.success ["a6"]),
      .chatInput "t7" "u7" (.success ["a7"]),
      .chatInput "t8" "u8" .resourceExhausted]).messages.length)
    ∧ (runEvents [
      .chatInput "t1" "u1" (.success ["a1"]),
      .chatInput "t2" "u2" (.success ["a2"]),
      .chatInput "t3" "u3" (.success ["a3"]),
      .chatInput "t4" "u4" (.success ["a4"]),
      .chatInput "t5" "u5" (.success ["a5"]),
      .chatInput "t6" "u6" (.success ["a6"]),
      .chatInput "t7" "u7" (.success ["a7"]),
      .chatInput "t8" "u8" .resourceExhausted]).messages.length = 13 := by
  constructor
  · decide
  · decide

/-- C3 amended: transcript length stays even across a completed turn only
when the cycle records an assistant reply — a successful non-empty
non-notice accumulation, or the generic-error apology.  It becomes (and
stays) odd when the accumulated reply is empty, and after a 429 restoration
from a store already holding at least 12 entries (the 12-entry window plus
the notice gives 13). -/
theorem transcript_even_length_amended (s : AppState) (now prompt : String) :
    (∀ chunks : List String, Even s.messages.length → accumulate chunks ≠ "" →
        accumulate chunks ≠ RESTART_MESSAGE →
        Even (processInput s now prompt (.success chunks)).messages.length)
    ∧ (∀ e : String, Even s.messages.length →
        Even (processInput s now prompt (.genericError e)).messages.length)
    ∧ (∀ chunks : List String, accumulate chunks = "" →
        (processInput s now prompt (.success chunks)).messages.length
          = s.messages.length + 1)
    ∧ (12 ≤ s.messages.length →
        (processInput s now prompt .resourceExhausted).messages.length = 13) := by
  refine ⟨?_, ?_, ?_, ?_⟩
  · intro chunks hev h1 h2
    rw [show processInput s now prompt (.success chunks)
          = recordModelResponse (appendUserTurn s now prompt) now
              (accumulate chunks) from rfl,
        recordModelResponse_messages_of_valid _ _ _ h1 h2]
    simp only [appendUserTurn, List.append_assoc, List.length_append,
      List.length_singleton, List.length_cons]
    rw [Nat.even_iff] at hev ⊢
    omega
  · intro e hev
    rw [show processInput s now prompt (.genericError e)
          = recordModelResponse (appendUserTurn s now prompt) now
              (apologyMessage e) from rfl,
        recordModelResponse_messages_of_valid _ _ _ (apologyMessage_ne_empty e)
          (apologyMessage_ne_restart e)]
    simp only [appendUserTurn, List.append_assoc, List.length_append,
      List.length_singleton, List.length_cons]
    rw [Nat.even_iff] at hev ⊢
    omega
  · intro chunks h0
    simp [processInput, recordModelResponse, appendUserTurn, h0]
  · intro h12
    rw [processInput_resourceExhausted]
    simp only [List.length_append, length_lastN, List.length_singleton,
      MAX_HISTORY_TURN]
    omega

/-- Witness for `transcript_even_length_amended`, discharging each branch:
a normal reply keeps the length even, an empty stream leaves it odd, and a
429 from a 12-entry store leaves 13 entries. -/
theorem transcript_even_length_amended_witness :
    Even (processInput initState "t" "p" (.success ["hi"])).messages.length
    ∧ Even (processInput initState "t" "p" (.genericError "boom")).messages.length
    ∧ (processInput initState "t" "p" (.success [""])).messages.length
        = initState.messages.length + 1
    ∧ (processInput ⟨mkPairs [("u1","a1"),("u2","a2"),("u3","a3"),("u4","a4"),
          ("u5","a5"),("u6","a6")], [], DEFAULT_MODEL, false, []⟩ "t" "u7"
          .resourceExhausted).messages.length = 13 :=
  ⟨(transcript_even_length_amended initState "t" "p").1 ["hi"]
      (by decide) (by decide) (by decide),
   (transcript_even_length_amended initState "t" "p").2.1 "boom" (by decide),
   (transcript_even_length_amended initState "t" "p").2.2.1 [""] (by decide),
   (transcript_even_length_amended ⟨mkPairs [("u1","a1"),("u2","a2"),("u3","a3"),
      ("u4","a4"),("u5","a5"),("u6","a6")], [], DEFAULT_MODEL, false, []⟩
      "t" "u7").2.2.2 (by decide)⟩

/-- C9 counterexample: after a single restoration the restart notice is
present in BOTH the Transcript Store and the Audit Log — it does not appear
in "only one of the two". -/
theorem restart_notice_in_both_stores :
    Turn.mk .assistant RESTART_MESSAGE
        ∈ (runEvents [.chatInput "t1" "u1" .resourceExhausted]).messages
    ∧ (⟨"t1", .assistant, RESTART_MESSAGE, DEFAULT_MODEL⟩ : LogEntry)
        ∈ (runEvents [.chatInput "t1" "u1" .resourceExhausted]).history_log := by
  constructor
  · decide
  · decide

lemma record_after_user_reflected (s : AppState) (now prompt full : String)
    (e : LogEntry)
    (he : e ∈ ((recordModelResponse (appendUserTurn s now prompt) now
        full).history_log.drop s.history_log.length)) :
    Turn.mk e.role e.content
      ∈ (recordModelResponse (appendUserTurn s now prompt) now full).messages := by
  by_cases hc : full ≠ "" ∧ full ≠ RESTART_MESSAGE
  · rw [recordModelResponse_log_of_valid _ _ _ hc.1 hc.2] at he
    rw [recordModelResponse_messages_of_valid _ _ _ hc.1 hc.2]
    cases hb : s.auto_log with
    | true =>
        simp only [appendUserTurn, hb, if_true, List.append_assoc,
          List.drop_left] at he
        simp only [appendUserTurn, List.append_assoc]
        rcases (by simpa using he : e = ⟨now, .user, prompt, s.model_name⟩
            ∨ e = ⟨now, .assistant, full, s.model_name⟩) with h | h
        · subst h; simp
        · subst h; simp
    | false =>
        simp only [appendUserTurn, hb, if_false, List.append_assoc,
          List.drop_left] at he
        simp only [appendUserTurn, List.append_assoc]
        have h : e = ⟨now, .user, prompt, s.model_name⟩ := by simpa using he
        subst h; simp
  · rw [show (recordModelResponse (appendUserTurn s now prompt) now full)
          = appendUserTurn s now prompt from by
        simp [recordModelResponse, hc]] at he ⊢
    simp only [appendUserTurn, List.drop_left] at he
    simp only [appendUserTurn]
    have h : e = ⟨now, .user, prompt, s.model_name⟩ := by simpa using he
    subst h; simp

/-- C9 amended: every record appended to the Audit Log during one rerun
cycle is, at the end of that cycle, also present as a turn in the Transcript
Store — including the restart notice, which the Restoration Procedure
appends to both.  (The original invariant fails as a state invariant only
because restoration truncates the transcript while leaving old log records
in place, and its exception clause is wrong: the notice lands in both.) -/
theorem log_append_reflected_in_transcript (s : AppState) (ev : Event)
    (e : LogEntry)
    (he : e ∈ ((step s ev).history_log.drop s.history_log.length)) :
    Turn.mk e.role e.content ∈ (step s ev).messages := by
  cases ev with
  | setAutoLog b =>
      rw [show (step s (.setAutoLog b)).history_log = s.history_log from rfl,
        List.drop_length] at he
      simp at he
  | resetButton now selected =>
      rw [show (step s (.resetButton now selected)).history_log = [] from rfl,
        List.drop_nil] at he
      simp at he
  | selectModel now selected =>
      by_cases hm : s.model_name ≠ selected
      · rw [show step s (.selectModel now selected)
            = initialize_client_and_chat s now selected none from by
              simp [step, checkModelChange, hm]] at he
        rw [show (initialize_client_and_chat s now selected none).history_log
            = [] from rfl, List.drop_nil] at he
        simp at he
      · rw [show step s (.selectModel now selected) = s from by
              simp [step, checkModelChange, hm]] at he
        rw [List.drop_length] at he
        simp at he
  | chatInput now prompt outcome =>
      cases outcome with
      | success chunks =>
          exact record_after_user_reflected s now prompt (accumulate chunks) e he
      | genericError err =>
          exact record_after_user_reflected s now prompt (apologyMessage err) e he
      | resourceExhausted =>
          rw [show step s (.chatInput now prompt .resourceExhausted)
                = processInput s now prompt .resourceExhausted from rfl,
              processInput_resourceExhausted] at he ⊢
          simp only [List.append_assoc, List.drop_left] at he
          rcases (by simpa using he : e = ⟨now, .user, prompt, s.model_name⟩
              ∨ e = restartLogEntry now s.model_name) with h | h
          · subst h
            refine List.mem_append_left _ ?_
            exact mem_lastN_append_last' _ (by norm_num [MAX_HISTORY_TURN])
              s.messages _
          · subst h
            simp [restartLogEntry]

/-- Witness for `log_append_reflected_in_transcript`: the user record
appended by a normal turn is reflected as the user turn in the transcript. -/
theorem log_append_reflected_in_transcript_witness :
    Turn.mk Role.user "p" ∈ (step initState (.chatInput "t" "p"
        (.success ["hi"]))).messages :=
  log_append_reflected_in_transcript initState (.chatInput "t" "p"
      (.success ["hi"])) ⟨"t", .user, "p", DEFAULT_MODEL⟩ (by decide)
